import Mathlib

/-!
Shallow embedding of `src/main.rs` (a wgpu 0.6 / winit triangle program) and
verification of the specification's claims about its frame-rendering lifecycle.

The program builds, at startup: a swap chain (`device.create_swap_chain`, lines
111-118), two shader modules, a vertex buffer from a fixed 3-vertex array
(lines 40-53 and 134-138), and a render pipeline whose color state uses
`sc_desc.format` (lines 140-166).  It then runs a winit event loop
(lines 168-238) whose arms are: `CloseRequested` sets `ControlFlow::Exit`;
`KeyboardInput` with pressed Escape sets `ControlFlow::Exit`;
`Resized(size)` overwrites `sc_desc.width`/`sc_desc.height` and calls
`device.create_swap_chain` again; `RedrawRequested` calls
`swap_chain.get_current_frame().expect("Timeout getting texture")`, records a
render pass (clear to color (0.1, 0.2, 0.3, 1.0), `set_pipeline`,
`set_vertex_buffer(0, ..)`, `draw(0..3, 0..1)`) and submits it.

Machine floats appearing in the source (vertex data, clear color) are carried
as exact rationals: no arithmetic is ever performed on them, they are data.
-/

namespace Triangle

/-- `wgpu::TextureFormat` (the source only ever uses `Bgra8UnormSrgb`,
line 113; further constructors stand for the rest of the enum). -/
inductive TextureFormat
  | bgra8UnormSrgb
  | rgba8UnormSrgb
  | bgra8Unorm

/-- `wgpu::PresentMode` (the source uses `Mailbox`, line 116). -/
inductive PresentMode
  | immediate
  | mailbox
  | fifo

/-- `wgpu::TextureUsage` as used in the source (`OUTPUT_ATTACHMENT`, line 112). -/
inductive TextureUsage
  | outputAttachment

/-- `wgpu::SwapChainDescriptor` (lines 111-117). -/
structure SwapChainDescriptor where
  usage : TextureUsage
  format : TextureFormat
  width : Nat
  height : Nat
  presentMode : PresentMode

/-- `wgpu::InputStepMode` (line 23). -/
inductive InputStepMode
  | vertex
  | instanceStep

/-- `wgpu::VertexFormat` (the source uses `Float4`, lines 28 and 33). -/
inductive VertexFormat
  | float4

/-- `wgpu::VertexAttributeDescriptor` (lines 25-34). -/
structure VertexAttributeDescriptor where
  offset : Nat
  shaderLocation : Nat
  format : VertexFormat

/-- `wgpu::VertexBufferDescriptor` (lines 21-36). -/
structure VertexBufferDescriptor where
  stride : Nat
  stepMode : InputStepMode
  attributes : List VertexAttributeDescriptor

/-- Byte size of an `f32`. -/
def f32Size : Nat := 4

/-- Byte size of `[f32; 4]` (`mem::size_of::<[f32; 4]>()`, line 31). -/
def float4ByteSize : Nat := 4 * f32Size

/-- The `Vertex` struct (lines 8-13): `#[repr(C)]` with `position: [f32; 4]`
followed by `color: [f32; 4]`, components carried as exact rationals. -/
structure Vertex where
  position : ℚ × ℚ × ℚ × ℚ
  color : ℚ × ℚ × ℚ × ℚ

/-- `mem::size_of::<Vertex>()` (line 22): two interleaved `[f32; 4]` fields. -/
def Vertex.byteSize : Nat := float4ByteSize + float4ByteSize

/-- `Vertex::desc()` (lines 19-37): stride = `size_of::<Vertex>()`, per-vertex
stepping, attribute 0 (position) at offset 0 and attribute 1 (color) at offset
`size_of::<[f32; 4]>()`, both `Float4`. -/
def Vertex.desc : VertexBufferDescriptor :=
  { stride := Vertex.byteSize
    stepMode := InputStepMode.vertex
    attributes :=
      [ { offset := 0, shaderLocation := 0, format := VertexFormat.float4 }
      , { offset := float4ByteSize, shaderLocation := 1, format := VertexFormat.float4 } ] }

/-- The `VERTICES` constant (lines 40-53): the fixed 3-vertex triangle. -/
def VERTICES : List Vertex :=
  [ { position := (0, 1/2, 0, 1), color := (1, 0, 0, 1) }
  , { position := (-(1/2), -(1/2), 0, 1), color := (0, 1, 0, 1) }
  , { position := (1/2, -(1/2), 0, 1), color := (0, 0, 1, 1) } ]

/-- `wgpu::PrimitiveTopology` (the source uses `TriangleList`, line 157). -/
inductive PrimitiveTopology
  | pointList
  | lineList
  | triangleList

/-- `wgpu::BlendDescriptor` occurrences in the source (`REPLACE`, lines 153-154). -/
inductive BlendDescriptor
  | replace

/-- `wgpu::IndexFormat` (the source uses `Uint16`, line 160). -/
inductive IndexFormat
  | uint16
  | uint32

/-- The render pipeline object assembled by `device.create_render_pipeline`
(lines 140-166), keeping the fields the spec's claims talk about. -/
structure RenderPipeline where
  colorFormat : TextureFormat
  colorBlend : BlendDescriptor
  alphaBlend : BlendDescriptor
  topology : PrimitiveTopology
  indexFormat : IndexFormat
  vertexBuffers : List VertexBufferDescriptor
  sampleCount : Nat

/-- `device.create_render_pipeline` (lines 140-166): the color state's format
is `sc_desc.format` (line 152), blend is REPLACE, topology `TriangleList`,
vertex state uses `Vertex::desc()`. -/
def createRenderPipeline (format : TextureFormat) : RenderPipeline :=
  { colorFormat := format
    colorBlend := BlendDescriptor.replace
    alphaBlend := BlendDescriptor.replace
    topology := PrimitiveTopology.triangleList
    indexFormat := IndexFormat.uint16
    vertexBuffers := [Vertex.desc]
    sampleCount := 1 }

/-- `wgpu::SwapChainError`, the error type of `get_current_frame` in wgpu 0.6. -/
inductive SwapChainError
  | timeout
  | outdated
  | lost
  | outOfMemory

/-- Outcome of one `swap_chain.get_current_frame()` call (line 201): an
environment oracle for the loop step. -/
inductive AcquireResult
  | success
  | failure (e : SwapChainError)

/-- `winit::event::ElementState`. -/
inductive ElementState
  | pressed
  | released

/-- `winit::event::VirtualKeyCode` (the source matches only `Escape`,
line 187; one further constructor stands for every other key). -/
inductive VirtualKeyCode
  | escape
  | space

/-- The window/loop events the closure at lines 178-237 distinguishes.
`other` covers the two wildcard arms (lines 197 and 236). -/
inductive Event
  | closeRequested
  | keyboardInput (state : ElementState) (virtualKeycode : Option VirtualKeyCode)
  | resized (width height : Nat)
  | redrawRequested
  | other

/-- `winit::event_loop::ControlFlow` as used by the source (lines 177, 183, 189). -/
inductive ControlFlow
  | poll
  | exit

/-- GPU-side operations the `RedrawRequested` arm performs, in order, including
frame-handle acquisition and its release (the `frame` binding is dropped at the
end of the arm, after `queue.submit`, which presents the frame in wgpu 0.6). -/
inductive GpuOp
  | acquireFrame
  | clear (r g b a : ℚ)
  | setPipeline
  | setVertexBuffer (slot : Nat)
  | draw (vertexStart vertexEnd instanceStart instanceEnd : Nat)
  | submit
  | releaseFrame

/-- The command/operation sequence of a successful `RedrawRequested` arm
(lines 199-234): acquire, clear to (0.1, 0.2, 0.3, 1.0) (lines 216-221),
`set_pipeline` (line 229), `set_vertex_buffer(0, ..)` (line 230),
`draw(0..3, 0..1)` (line 231), `queue.submit` (line 234), frame dropped. -/
def redrawOps : List GpuOp :=
  [ GpuOp.acquireFrame
  , GpuOp.clear (1/10) (2/10) (3/10) 1
  , GpuOp.setPipeline
  , GpuOp.setVertexBuffer 0
  , GpuOp.draw 0 3 0 1
  , GpuOp.submit
  , GpuOp.releaseFrame ]

/-- The mutable state captured by the event-loop closure: the swap-chain
descriptor `sc_desc` and swap chain (tracked by how many times
`device.create_swap_chain` has run), plus the pipeline and vertex buffer,
which the closure holds but never reassigns. -/
structure AppState where
  scDesc : SwapChainDescriptor
  scConfigures : Nat
  renderPipeline : RenderPipeline
  vertexBuffer : List Vertex

/-- `sc_desc` as initialized at lines 111-117 for a window of size `w × h`. -/
def initialScDesc (w h : Nat) : SwapChainDescriptor :=
  { usage := TextureUsage.outputAttachment
    format := TextureFormat.bgra8UnormSrgb
    width := w
    height := h
    presentMode := PresentMode.mailbox }

/-- The state after startup (lines 85-166): `sc_desc` built, the swap chain
created once (line 118), the vertex buffer uploaded once from `VERTICES`
(lines 134-138), the pipeline built once against `sc_desc.format`
(lines 140-166). -/
def mkInitialState (w h : Nat) : AppState :=
  { scDesc := initialScDesc w h
    scConfigures := 1
    renderPipeline := createRenderPipeline (initialScDesc w h).format
    vertexBuffer := VERTICES }

/-- A panic: the `.expect` message (line 202) together with the
`SwapChainError` that triggered it. -/
structure Panic where
  message : String
  cause : SwapChainError

/-- One iteration of the event-loop closure (lines 168-238).  The closure
first sets `*control_flow = ControlFlow::Poll` (line 177), then matches the
event; the result is the new state, the control flow after the iteration, and
the GPU operations the iteration performed.  `acq` is the environment's answer
to `get_current_frame` (only consulted by the `RedrawRequested` arm).  A
failed acquisition hits `.expect("Timeout getting texture")` and panics. -/
def processEvent (st : AppState) (ev : Event) (acq : AcquireResult) :
    Except Panic (AppState × ControlFlow × List GpuOp) :=
  match ev with
  | Event.closeRequested => Except.ok (st, ControlFlow.exit, [])
  | Event.keyboardInput s k =>
      match s, k with
      | ElementState.pressed, some VirtualKeyCode.escape =>
          Except.ok (st, ControlFlow.exit, [])
      | _, _ => Except.ok (st, ControlFlow.poll, [])
  | Event.resized w h =>
      Except.ok
        ({ st with
            scDesc := { st.scDesc with width := w, height := h }
            scConfigures := st.scConfigures + 1 },
          ControlFlow.poll, [])
  | Event.redrawRequested =>
      match acq with
      | AcquireResult.success => Except.ok (st, ControlFlow.poll, redrawOps)
      | AcquireResult.failure e =>
          Except.error { message := "Timeout getting texture", cause := e }
  | Event.other => Except.ok (st, ControlFlow.poll, [])

/-- How a modelled run ends. -/
inductive Outcome
  | terminated
  | panicked (p : Panic)
  | pending

/-- Result of driving the loop over a list of events. -/
structure RunResult where
  outcome : Outcome
  finalState : AppState
  trace : List GpuOp
  deviceReleases : Nat

/-- Drive the event loop over a list of (event, acquisition-oracle) pairs.
`ControlFlow::Exit` stops the loop; `event_loop.run` then tears down the
closure, dropping every captured handle (device included) exactly once.  A
panic unwinds through the closure, which also drops each handle exactly once.
`pending` means the event stream ran out with the loop still live. -/
def run (st : AppState) : List (Event × AcquireResult) → RunResult
  | [] => { outcome := Outcome.pending, finalState := st, trace := [], deviceReleases := 0 }
  | (ev, acq) :: rest =>
    match processEvent st ev acq with
    | Except.error p =>
        { outcome := Outcome.panicked p, finalState := st, trace := [], deviceReleases := 1 }
    | Except.ok (st', cf, ops) =>
        match cf with
        | ControlFlow.exit =>
            { outcome := Outcome.terminated, finalState := st', trace := ops,
              deviceReleases := 1 }
        | ControlFlow.poll =>
            let r := run st' rest
            { outcome := r.outcome, finalState := r.finalState,
              trace := ops ++ r.trace, deviceReleases := r.deviceReleases }

/-- States reachable from some startup state through loop iterations. -/
inductive Reachable : AppState → Prop
  | init (w h : Nat) : Reachable (mkInitialState w h)
  | step (st st' : AppState) (ev : Event) (acq : AcquireResult)
      (cf : ControlFlow) (ops : List GpuOp) :
      Reachable st → processEvent st ev acq = Except.ok (st', cf, ops) →
      Reachable st'

/-- Is an operation a frame acquisition? -/
def isAcquire : GpuOp → Bool
  | GpuOp.acquireFrame => true
  | _ => false

/-- Is an operation a frame release (submit-and-drop)? -/
def isRelease : GpuOp → Bool
  | GpuOp.releaseFrame => true
  | _ => false

/-- Is an operation a draw call? -/
def isDraw : GpuOp → Bool
  | GpuOp.draw _ _ _ _ => true
  | _ => false

/-- Number of frame acquisitions in a trace. -/
def acquires (ops : List GpuOp) : Nat := ops.countP isAcquire

/-- Number of frame releases in a trace. -/
def releases (ops : List GpuOp) : Nat := ops.countP isRelease

/-- A trace keeps at most one frame handle outstanding at every point, and
never releases a handle it has not acquired. -/
def FrameSafe (ops : List GpuOp) : Prop :=
  ∀ pre, pre <+: ops → releases pre ≤ acquires pre ∧ acquires pre ≤ releases pre + 1

/-- Any successful loop iteration leaves the pipeline, the vertex buffer and
the surface format untouched, and emits either no GPU operations or exactly
the redraw sequence. -/
theorem processEvent_ok_inv (st st' : AppState) (ev : Event) (acq : AcquireResult)
    (cf : ControlFlow) (ops : List GpuOp)
    (h : processEvent st ev acq = Except.ok (st', cf, ops)) :
    st'.renderPipeline = st.renderPipeline ∧ st'.vertexBuffer = st.vertexBuffer ∧
    st'.scDesc.format = st.scDesc.format ∧ (ops = [] ∨ ops = redrawOps) := by
  cases ev with
  | closeRequested =>
      simp only [processEvent, Except.ok.injEq, Prod.mk.injEq] at h
      obtain ⟨rfl, -, rfl⟩ := h
      exact ⟨rfl, rfl, rfl, Or.inl rfl⟩
  | keyboardInput s k =>
      rcases k with _ | kc
      · cases s <;>
          (simp only [processEvent, Except.ok.injEq, Prod.mk.injEq] at h;
           obtain ⟨rfl, -, rfl⟩ := h;
           exact ⟨rfl, rfl, rfl, Or.inl rfl⟩)
      · cases s <;> cases kc <;>
          (simp only [processEvent, Except.ok.injEq, Prod.mk.injEq] at h;
           obtain ⟨rfl, -, rfl⟩ := h;
           exact ⟨rfl, rfl, rfl, Or.inl rfl⟩)
  | resized w h =>
      simp only [processEvent, Except.ok.injEq, Prod.mk.injEq] at h
      obtain ⟨rfl, -, rfl⟩ := h
      exact ⟨rfl, rfl, rfl, Or.inl rfl⟩
  | redrawRequested =>
      cases acq with
      | success =>
          simp only [processEvent, Except.ok.injEq, Prod.mk.injEq] at h
          obtain ⟨rfl, -, rfl⟩ := h
          exact ⟨rfl, rfl, rfl, Or.inr rfl⟩
      | failure e =>
          simp only [processEvent] at h
          exact Except.noConfusion h
  | other =>
      simp only [processEvent, Except.ok.injEq, Prod.mk.injEq] at h
      obtain ⟨rfl, -, rfl⟩ := h
      exact ⟨rfl, rfl, rfl, Or.inl rfl⟩

/-- C1 counterexample: a single tick whose frame acquisition times out makes
the whole run panic (`.expect("Timeout getting texture")`, line 202 of
`main.rs`), with an empty trace — the loop does NOT return to Idle and does
NOT continue, contradicting the claim that a timeout only skips the tick. -/
theorem c1_counterexample :
    (run (mkInitialState 800 600)
        [(Event.redrawRequested, AcquireResult.failure SwapChainError.timeout),
         (Event.redrawRequested, AcquireResult.success)]).outcome
      = Outcome.panicked
          { message := "Timeout getting texture", cause := SwapChainError.timeout } ∧
    (run (mkInitialState 800 600)
        [(Event.redrawRequested, AcquireResult.failure SwapChainError.timeout),
         (Event.redrawRequested, AcquireResult.success)]).trace = [] :=
  ⟨rfl, rfl⟩

/-- C1 (amended): every frame-acquisition timeout makes the program panic with
the `expect` message "Timeout getting texture"; the tick is not skipped, the
loop terminates instead of continuing, and any later events are never
processed. -/
theorem c1_timeout_panics (st : AppState) (evs : List (Event × AcquireResult)) :
    processEvent st Event.redrawRequested (AcquireResult.failure SwapChainError.timeout)
      = Except.error { message := "Timeout getting texture", cause := SwapChainError.timeout } ∧
    (run st ((Event.redrawRequested, AcquireResult.failure SwapChainError.timeout) :: evs)).outcome
      = Outcome.panicked
          { message := "Timeout getting texture", cause := SwapChainError.timeout } ∧
    (run st ((Event.redrawRequested, AcquireResult.failure SwapChainError.timeout) :: evs)).trace
      = [] :=
  ⟨rfl, rfl, rfl⟩

/-- C2 counterexample: a resize signal with width = 0 and height = 0 DOES
invoke configure — the `Resized` arm (lines 192-196 of `main.rs`) overwrites
the descriptor and calls `device.create_swap_chain` unconditionally, taking
the configure count from 1 to 2, and there is no Suspended state at all. -/
theorem c2_counterexample :
    processEvent (mkInitialState 800 600) (Event.resized 0 0) AcquireResult.success
      = Except.ok
          ({ mkInitialState 800 600 with
              scDesc := { initialScDesc 800 600 with width := 0, height := 0 }
              scConfigures := 2 },
            ControlFlow.poll, []) ∧
    Except.map (fun r => r.1.scConfigures)
        (processEvent (mkInitialState 800 600) (Event.resized 0 0) AcquireResult.success)
      = Except.ok 2 :=
  ⟨rfl, rfl⟩

/-- C2 (amended): every resize signal, including one with width = 0 and
height = 0, immediately overwrites the stored width/height and invokes
configure (swap-chain recreation) exactly once; no Suspended state exists and
zero-size resizes are not filtered. -/
theorem c2_resize_always_configures (st : AppState) (w h : Nat) (acq : AcquireResult) :
    processEvent st (Event.resized w h) acq
      = Except.ok
          ({ st with
              scDesc := { st.scDesc with width := w, height := h }
              scConfigures := st.scConfigures + 1 },
            ControlFlow.poll, []) :=
  rfl

/-- C3 counterexample: when frame acquisition fails with a surface-lost error
the program panics at once through the same `expect` (line 202 of `main.rs`);
the run ends `panicked`, and the final configure count is still 1 — no
recovery `configure` is ever run, contradicting the claimed recovery path. -/
theorem c3_counterexample :
    processEvent (mkInitialState 800 600) Event.redrawRequested
        (AcquireResult.failure SwapChainError.lost)
      = Except.error { message := "Timeout getting texture", cause := SwapChainError.lost } ∧
    (run (mkInitialState 800 600)
        [(Event.redrawRequested, AcquireResult.failure SwapChainError.lost)]).outcome
      = Outcome.panicked
          { message := "Timeout getting texture", cause := SwapChainError.lost } ∧
    (run (mkInitialState 800 600)
        [(Event.redrawRequested, AcquireResult.failure SwapChainError.lost)]).finalState.scConfigures
      = 1 :=
  ⟨rfl, rfl, rfl⟩

/-- C3 (amended): whenever frame acquisition fails with a surface-lost error
the program panics immediately (same `expect` as the timeout case) and
terminates; no reconfiguration is attempted — the configure count at the end
of the run equals the count before the failing tick. -/
theorem c3_surface_lost_panics (st : AppState) (evs : List (Event × AcquireResult)) :
    processEvent st Event.redrawRequested (AcquireResult.failure SwapChainError.lost)
      = Except.error { message := "Timeout getting texture", cause := SwapChainError.lost } ∧
    (run st ((Event.redrawRequested, AcquireResult.failure SwapChainError.lost) :: evs)).outcome
      = Outcome.panicked
          { message := "Timeout getting texture", cause := SwapChainError.lost } ∧
    (run st ((Event.redrawRequested, AcquireResult.failure SwapChainError.lost) :: evs)).finalState.scConfigures
      = st.scConfigures :=
  ⟨rfl, rfl, rfl⟩

/-- C4: a successful frame acquisition records exactly the sequence: acquire,
clear to the fixed background color (0.1, 0.2, 0.3, 1.0), bind the pipeline,
bind the vertex buffer at slot 0, one non-indexed draw of vertex range [0,3)
and instance range [0,1), submit, release — and that sequence contains exactly
one draw call. -/
theorem c4_redraw_commands (st : AppState) :
    processEvent st Event.redrawRequested AcquireResult.success
      = Except.ok (st, ControlFlow.poll, redrawOps) ∧
    redrawOps
      = [ GpuOp.acquireFrame
        , GpuOp.clear (1/10) (2/10) (3/10) 1
        , GpuOp.setPipeline
        , GpuOp.setVertexBuffer 0
        , GpuOp.draw 0 3 0 1
        , GpuOp.submit
        , GpuOp.releaseFrame ] ∧
    List.countP isDraw redrawOps = 1 :=
  ⟨rfl, rfl, rfl⟩

/-- C5: the swap chain is configured exactly once at startup, and in the run
"startup at 800×600, one resize to 400×300, then a close signal" the loop
terminates with the swap chain configured exactly twice and the device
released exactly once. -/
theorem c5_configure_count :
    (mkInitialState 800 600).scConfigures = 1 ∧
    (run (mkInitialState 800 600)
        [(Event.resized 400 300, AcquireResult.success),
         (Event.closeRequested, AcquireResult.success)]).outcome = Outcome.terminated ∧
    (run (mkInitialState 800 600)
        [(Event.resized 400 300, AcquireResult.success),
         (Event.closeRequested, AcquireResult.success)]).finalState.scConfigures = 2 ∧
    (run (mkInitialState 800 600)
        [(Event.resized 400 300, AcquireResult.success),
         (Event.closeRequested, AcquireResult.success)]).deviceReleases = 1 :=
  ⟨rfl, rfl, rfl, rfl⟩

/-- C10: a key-down of Escape sets the control flow to Exit, exactly as a
close request does: both iterations return the same result — state unchanged,
control flow Exit, no GPU operations. -/
theorem c10_escape_exits (st : AppState) (acq : AcquireResult) :
    processEvent st (Event.keyboardInput ElementState.pressed (some VirtualKeyCode.escape)) acq
      = Except.ok (st, ControlFlow.exit, []) ∧
    processEvent st Event.closeRequested acq = Except.ok (st, ControlFlow.exit, []) ∧
    processEvent st (Event.keyboardInput ElementState.pressed (some VirtualKeyCode.escape)) acq
      = processEvent st Event.closeRequested acq :=
  ⟨rfl, rfl, rfl⟩

/-- C6: no event the loop handles ever rebuilds the render pipeline or the
vertex buffer — every successful iteration leaves both exactly as built at
startup. -/
theorem c6_pipeline_immutable (st st' : AppState) (ev : Event) (acq : AcquireResult)
    (cf : ControlFlow) (ops : List GpuOp)
    (h : processEvent st ev acq = Except.ok (st', cf, ops)) :
    st'.renderPipeline = st.renderPipeline ∧ st'.vertexBuffer = st.vertexBuffer :=
  ⟨(processEvent_ok_inv st st' ev acq cf ops h).1,
   (processEvent_ok_inv st st' ev acq cf ops h).2.1⟩

/-- C6 witness: a concrete resize iteration from the 800×600 startup state
keeps the pipeline and vertex buffer. -/
theorem c6_witness :
    ({ mkInitialState 800 600 with
        scDesc := { initialScDesc 800 600 with width := 400, height := 300 }
        scConfigures := 2 } : AppState).renderPipeline
      = (mkInitialState 800 600).renderPipeline ∧
    ({ mkInitialState 800 600 with
        scDesc := { initialScDesc 800 600 with width := 400, height := 300 }
        scConfigures := 2 } : AppState).vertexBuffer
      = (mkInitialState 800 600).vertexBuffer :=
  c6_pipeline_immutable (mkInitialState 800 600) _ (Event.resized 400 300)
    AcquireResult.success ControlFlow.poll [] rfl

/-- C7: the vertex buffer is created at startup from the fixed 3-vertex data,
laid out interleaved with position (4 floats, offset 0) then color (4 floats,
offset 16) in a 32-byte stride; it is bound on every successful frame and no
iteration ever mutates it. -/
theorem c7_vertex_buffer (st st' : AppState) (ev : Event) (acq : AcquireResult)
    (cf : ControlFlow) (ops : List GpuOp) (w h : Nat)
    (hstep : processEvent st ev acq = Except.ok (st', cf, ops)) :
    VERTICES.length = 3 ∧
    Vertex.desc.stride = 32 ∧
    Vertex.desc.attributes.map VertexAttributeDescriptor.offset = [0, 16] ∧
    Vertex.desc.attributes.map VertexAttributeDescriptor.format
      = [VertexFormat.float4, VertexFormat.float4] ∧
    (mkInitialState w h).vertexBuffer = VERTICES ∧
    st'.vertexBuffer = st.vertexBuffer ∧
    processEvent st Event.redrawRequested AcquireResult.success
      = Except.ok (st, ControlFlow.poll, redrawOps) ∧
    GpuOp.setVertexBuffer 0 ∈ redrawOps :=
  ⟨rfl, rfl, rfl, rfl, rfl,
   (processEvent_ok_inv st st' ev acq cf ops hstep).2.1, rfl, by simp [redrawOps]⟩

/-- C7 witness: instantiated at the 800×600 startup state and one no-op
iteration. -/
theorem c7_witness :
    VERTICES.length = 3 ∧
    Vertex.desc.stride = 32 ∧
    Vertex.desc.attributes.map VertexAttributeDescriptor.offset = [0, 16] ∧
    Vertex.desc.attributes.map VertexAttributeDescriptor.format
      = [VertexFormat.float4, VertexFormat.float4] ∧
    (mkInitialState 800 600).vertexBuffer = VERTICES ∧
    (mkInitialState 800 600).vertexBuffer = (mkInitialState 800 600).vertexBuffer ∧
    processEvent (mkInitialState 800 600) Event.redrawRequested AcquireResult.success
      = Except.ok (mkInitialState 800 600, ControlFlow.poll, redrawOps) ∧
    GpuOp.setVertexBuffer 0 ∈ redrawOps :=
  c7_vertex_buffer (mkInitialState 800 600) (mkInitialState 800 600) Event.other
    AcquireResult.success ControlFlow.poll [] 800 600 rfl

/-- C8: in every reachable state the pipeline's expected color format equals
the surface configuration's format, and a pure resize changes neither the
format nor the pipeline. -/
theorem c8_format_matches (st st0 : AppState) (w h : Nat) (acq : AcquireResult)
    (hst : Reachable st) :
    st.renderPipeline.colorFormat = st.scDesc.format ∧
    Except.map (fun r => (r.1.scDesc.format, r.1.renderPipeline))
        (processEvent st0 (Event.resized w h) acq)
      = Except.ok (st0.scDesc.format, st0.renderPipeline) := by
  constructor
  · induction hst with
    | init w1 h1 => rfl
    | step st1 st1' ev acq1 cf ops hr hstep ih =>
        have hp := processEvent_ok_inv st1 st1' ev acq1 cf ops hstep
        rw [hp.1, hp.2.2.1]
        exact ih
  · rfl

/-- C8 witness: the invariant at the 800×600 startup state, with a concrete
pure resize. -/
theorem c8_witness :
    (mkInitialState 800 600).renderPipeline.colorFormat
      = (mkInitialState 800 600).scDesc.format ∧
    Except.map (fun r => (r.1.scDesc.format, r.1.renderPipeline))
        (processEvent (mkInitialState 800 600) (Event.resized 400 300)
          AcquireResult.success)
      = Except.ok ((mkInitialState 800 600).scDesc.format,
          (mkInitialState 800 600).renderPipeline) :=
  c8_format_matches (mkInitialState 800 600) (mkInitialState 800 600) 400 300
    AcquireResult.success (Reachable.init 800 600)

/-- The empty trace is frame-safe. -/
theorem frameSafe_nil : FrameSafe [] := by
  intro pre hpre
  rw [List.prefix_nil.mp hpre]
  decide

/-- The redraw operation sequence is frame-safe: the single acquisition is
released (submit-and-drop) before the block ends. -/
theorem frameSafe_redrawOps : FrameSafe redrawOps := by
  intro pre hpre
  obtain ⟨n, hn, rfl⟩ : ∃ n, n ≤ 7 ∧ pre = redrawOps.take n :=
    ⟨pre.length, by simpa [redrawOps] using hpre.length_le,
     List.prefix_iff_eq_take.mp hpre⟩
  interval_cases n <;> decide

/-- Concatenating a frame-safe, balanced block with a frame-safe trace yields
a frame-safe trace. -/
theorem frameSafe_append (xs ys : List GpuOp) (hx : FrameSafe xs)
    (hbal : acquires xs = releases xs) (hy : FrameSafe ys) :
    FrameSafe (xs ++ ys) := by
  intro pre hpre
  by_cases hle : pre.length ≤ xs.length
  · exact hx pre (List.prefix_of_prefix_length_le hpre (xs.prefix_append ys) hle)
  · push_neg at hle
    have hxpre : xs <+: pre :=
      List.prefix_of_prefix_length_le (xs.prefix_append ys) hpre (le_of_lt hle)
    obtain ⟨suf, rfl⟩ := hxpre
    have hsuf : suf <+: ys := (List.prefix_append_right_inj xs).mp hpre
    have h1 := hy suf hsuf
    simp only [acquires, releases, List.countP_append] at h1 hbal ⊢
    omega

/-- The GPU trace of every run is frame-safe. -/
theorem run_trace_frameSafe (evs : List (Event × AcquireResult)) (st : AppState) :
    FrameSafe (run st evs).trace := by
  induction evs generalizing st with
  | nil => simpa [run] using frameSafe_nil
  | cons p rest ih =>
      obtain ⟨ev, acq⟩ := p
      cases hpe : processEvent st ev acq with
      | error pnc => simpa [run, hpe] using frameSafe_nil
      | ok r =>
          obtain ⟨st', cf, ops⟩ := r
          have hops := (processEvent_ok_inv st st' ev acq cf ops hpe).2.2.2
          have hsafe : FrameSafe ops := by
            rcases hops with rfl | rfl
            · exact frameSafe_nil
            · exact frameSafe_redrawOps
          have hbal : acquires ops = releases ops := by
            rcases hops with rfl | rfl <;> decide
          cases cf with
          | exit => simpa [run, hpe] using hsafe
          | poll =>
              have hcat := frameSafe_append ops (run st' rest).trace hsafe hbal (ih st')
              simpa [run, hpe] using hcat

/-- C9: along every run from a startup state, every prefix of the GPU trace
has at most one frame handle outstanding, and never a release without a prior
acquisition: each frame is submitted-and-dropped before the next acquisition. -/
theorem c9_at_most_one_frame (w h : Nat) (evs : List (Event × AcquireResult))
    (pre : List GpuOp) (hpre : pre <+: (run (mkInitialState w h) evs).trace) :
    releases pre ≤ acquires pre ∧ acquires pre ≤ releases pre + 1 :=
  run_trace_frameSafe evs (mkInitialState w h) pre hpre

/-- C9 witness: the full trace of a one-redraw run from the 800×600 startup
state. -/
theorem c9_witness :
    releases (run (mkInitialState 800 600)
        [(Event.redrawRequested, AcquireResult.success)]).trace
      ≤ acquires (run (mkInitialState 800 600)
        [(Event.redrawRequested, AcquireResult.success)]).trace ∧
    acquires (run (mkInitialState 800 600)
        [(Event.redrawRequested, AcquireResult.success)]).trace
      ≤ releases (run (mkInitialState 800 600)
        [(Event.redrawRequested, AcquireResult.success)]).trace + 1 :=
  c9_at_most_one_frame 800 600 [(Event.redrawRequested, AcquireResult.success)]
    ((run (mkInitialState 800 600)
        [(Event.redrawRequested, AcquireResult.success)]).trace)
    (List.prefix_refl _)

end Triangle
